import Mathlib

/-
  Verification development for the ownership analytics stage of the
  sui-analytics-indexer (SZNS/sui fork).

  Shallow embedding of:
    src/crates/sui-analytics-indexer/src/handlers/ownership_handler.rs
    src/crates/sui-analytics-indexer/src/schema.rs

  Conventions of the embedding:
  - ObjectID values and transaction digests are carried as strings; the
    source calls id.to_string() / digest().base58_encode() when storing
    them into entries, so the string is the observable identity.
  - On-chain u64 counters (version, epoch, checkpoint sequence number,
    timestamp, coin value) are Nat. No arithmetic is performed on them in
    the source, only copying, so no wrap-around can occur.
  - The OwnershipEntry struct itself (tables.rs) is not under src/. Its
    numeric fields must be u64 for the handler to type-check: the Deleted
    path assigns u64::from(object_ref.1) to version with no conversion
    (ownership_handler.rs line 214). Hence every .try_into().unwrap()
    from a u64 in this file is the infallible identity and is embedded as
    such. The relational schema in src/crates/sui-analytics-indexer/src/
    schema.rs declares the corresponding columns as signed 64-bit (Int8);
    the predicate fitsInI64 below captures that column bound.
  - Rust panics (.expect on the status tracker) are embedded as failure
    of the enclosing computation (Option none), matching the observable
    fact that the checkpoint is not processed to completion.
-/

namespace SuiOwnership

/-- On-chain object as seen by the handler. `coin_type` models
`object.coin_type_maybe().map(|t| t.to_string())`. `owner_type` and
`owner_address` model `get_owner_type(object)` / `get_owner_address(object)`
from handlers/mod.rs. Modelled from the spec: get_owner_type and
get_owner_address are not under src/; the spec says an object carries a
current owner classification and address, the address being absent when
there is no resolvable owner, so they are carried as fields here.
`coin_value` models `object.get_coin_value_unsafe()` and
`previous_transaction` models `object.previous_transaction.base58_encode()`. -/
structure Obj where
  id : String
  version : Nat
  coin_type : Option String
  coin_value : Nat
  owner_type : String
  owner_address : Option String
  previous_transaction : String
deriving Repr, DecidableEq

/-- Modelled from the spec: `get_owner_address(object)` (handlers/mod.rs,
not under src/) — the current owner address, absent when no resolvable
owner exists. -/
def get_owner_address (o : Obj) : Option String :=
  o.owner_address

/-- Modelled from the spec: `get_owner_type(object)` (handlers/mod.rs, not
under src/) — the current owner classification, always rendered to a
string by the caller. -/
def get_owner_type (o : Obj) : String :=
  o.owner_type

/-- The emitted record (tables.rs `OwnershipEntry`, mirrored by the
`ownership` table of schema.rs). Numeric fields are u64 in memory (see the
header comment); Option models the Nullable columns. -/
structure OwnershipEntry where
  object_id : String
  version : Nat
  checkpoint : Nat
  epoch : Nat
  timestamp_ms : Nat
  owner_type : Option String
  owner_address : Option String
  object_status : String
  previous_transaction : String
  coin_type : Option String
  coin_balance : Nat
  previous_owner : Option String
  previous_version : Option Nat
  previous_checkpoint : Option Nat
  previous_coin_type : Option String
  previous_type : Option String
deriving Repr, DecidableEq

/-- A value fits the signed 64-bit (`Int8`) columns that schema.rs declares
for version, checkpoint, epoch, timestamp_ms and coin_balance of the
`ownership` table. -/
def fitsInI64 (n : Nat) : Prop :=
  n < 2 ^ 63

instance (n : Nat) : Decidable (fitsInI64 n) := by
  unfold fitsInI64
  infer_instance

/-- A transaction's effects. The five id sets model the effect sets the
Status Classifier reads; `removed` models
`effects.all_removed_objects()` as (object id, version-of-removal) pairs
(the code reads `object_ref.0` and `object_ref.1`). Modelled from the
spec where TransactionEffects internals are not under src/: the spec
describes effects as the sets of object references the transaction
created, mutated, deleted, wrapped or unwrapped, plus the deleted-object
set with its deletion references. -/
structure TransactionEffects where
  created : List String
  mutated : List String
  unwrapped : List String
  deleted : List String
  wrapped : List String
  removed : List (String × Nat)
deriving Repr, DecidableEq

/-- Modelled from the spec: the Status Classifier
(`ObjectStatusTracker::new(effects).get_object_status(&object_id)`,
handlers/mod.rs, not under src/) — a pure lookup across the effect sets
returning exactly one status label, or none when the id appears in no
effect set. -/
def TransactionEffects.get_object_status (e : TransactionEffects) (id : String) :
    Option String :=
  if id ∈ e.created then some ("Created")
  else if id ∈ e.mutated then some ("Mutated")
  else if id ∈ e.unwrapped then some ("Unwrapped")
  else if id ∈ e.deleted then some ("Deleted")
  else if id ∈ e.wrapped then some ("Wrapped")
  else none

/-- One checkpoint transaction: its input objects, output objects, effects
and transaction digest (`transaction.digest().base58_encode()`). -/
structure CheckpointTransaction where
  input_objects : List Obj
  output_objects : List Obj
  effects : TransactionEffects
  digest : String
deriving Repr, DecidableEq

/-- Checkpoint summary: epoch, sequence_number, timestamp_ms, plus the
end-of-epoch flag. The flag is modelled from the spec (the summary type is
not under src/); the handler's process_checkpoint destructures only the
summary and the transactions. -/
structure CheckpointSummary where
  epoch : Nat
  sequence_number : Nat
  timestamp_ms : Nat
  end_of_epoch : Bool
deriving Repr, DecidableEq

/-- The CheckpointData payload: summary plus ordered transactions. -/
structure CheckpointData where
  checkpoint_summary : CheckpointSummary
  transactions : List CheckpointTransaction
deriving Repr, DecidableEq

/-- The handler's `State`: the accumulated entries, plus the set of
package addresses currently held by the package cache. The cache content
is modelled from the spec (LocalDBPackageStore / PackageCache are not
under src/): the Type Metadata Cache is keyed by package address and
supports bulk eviction. The handler code under src/ never touches the
cache during processing (the single call site is commented out), which is
what the theorems below are about. -/
structure State where
  objects : List OwnershipEntry
  cache : List String
deriving Repr, DecidableEq

/-- The handler configuration: `package_filter`, parsed in
`OwnershipHandler::new` from an optional hex literal. Paths and URIs of
the backing store are irrelevant to the claims and omitted. -/
structure OwnershipHandler where
  package_filter : Option String
deriving Repr, DecidableEq

/-- Modelled from the spec: `SYSTEM_PACKAGE_ADDRESSES`, the fixed
protocol-package address set (imported by ownership_handler.rs but defined
outside src/). -/
def SYSTEM_PACKAGE_ADDRESSES : List String :=
  ["0x1", "0x2", "0x3"]

/-- Modelled from the spec: the Type Metadata Cache's bulk eviction —
drops cached entries for the given set of package addresses. Used only to
state what the code would have to do at an epoch boundary. -/
def evict (cache : List String) (addrs : List String) : List String :=
  cache.filter (fun a => decide (a ∉ addrs))

/-- The tracked coin type the handler hardcodes
(`"0x2::sui::SUI".to_string()`). -/
def suiCoinType : String :=
  "0x2::sui::SUI"

/-- Lines 62-83: the snapshot entry built for a SUI-typed input object
("old ownership information"). It is a template, pushed only into the
local `old_ownership_entries` list, never directly into the state. -/
def mkOldEntry (epoch checkpoint timestamp_ms : Nat) (o : Obj) : OwnershipEntry :=
  { object_id := o.id
    version := o.version
    checkpoint := checkpoint
    epoch := epoch
    timestamp_ms := timestamp_ms
    owner_type := some (get_owner_type o)
    owner_address := get_owner_address o
    object_status := "Transfer Out"
    previous_transaction := o.previous_transaction
    coin_type := some (o.coin_type.getD ("None"))
    coin_balance := if o.coin_type.isSome then o.coin_value else 0
    previous_owner := none
    previous_version := none
    previous_checkpoint := none
    previous_coin_type := none
    previous_type := none }

/-- Lines 57-86: the `old_ownership_entries` vector — one `(id, entry)`
pair per input object whose coin type is exactly the SUI coin. -/
def buildOldEntries (epoch checkpoint timestamp_ms : Nat) (inputs : List Obj) :
    List (String × OwnershipEntry) :=
  (inputs.filter (fun o => o.coin_type = some suiCoinType)).map
    (fun o => (o.id, mkOldEntry epoch checkpoint timestamp_ms o))

/-- Lines 97-114: the "Transfer Out" entry for an owner change. Note that
`owner_type` comes from the output object while `owner_address` and the
previous_* block come from the old snapshot entry. -/
def transferOutEntry (epoch checkpoint timestamp_ms : Nat)
    (old_entry : OwnershipEntry) (o : Obj) : OwnershipEntry :=
  { object_id := o.id
    version := o.version
    checkpoint := checkpoint
    epoch := epoch
    timestamp_ms := timestamp_ms
    owner_type := some (get_owner_type o)
    owner_address := old_entry.owner_address
    object_status := "Transfer Out"
    previous_transaction := o.previous_transaction
    coin_type := o.coin_type
    coin_balance := 0
    previous_owner := old_entry.owner_address
    previous_version := some old_entry.version
    previous_checkpoint := some old_entry.checkpoint
    previous_coin_type := old_entry.coin_type
    previous_type := old_entry.owner_type }

/-- Lines 118-139: the "Transfer In" entry for the new owner. -/
def transferInEntry (epoch checkpoint timestamp_ms : Nat)
    (old_entry : OwnershipEntry) (o : Obj) : OwnershipEntry :=
  { object_id := o.id
    version := o.version
    checkpoint := checkpoint
    epoch := epoch
    timestamp_ms := timestamp_ms
    owner_type := some (get_owner_type o)
    owner_address := get_owner_address o
    object_status := "Transfer In"
    previous_transaction := o.previous_transaction
    coin_type := o.coin_type
    coin_balance := if o.coin_type.isSome then o.coin_value else 0
    previous_owner := old_entry.owner_address
    previous_version := some old_entry.version
    previous_checkpoint := some old_entry.checkpoint
    previous_coin_type := old_entry.coin_type
    previous_type := old_entry.owner_type }

/-- Lines 146-170 and 178-202: the entry for a same-owner mutation and the
entry for a newly appearing object. The two source blocks construct
byte-for-byte identical records (status from the tracker, current owner
and balance, null previous_*), so a single definition covers both. -/
def statusEntry (epoch checkpoint timestamp_ms : Nat) (st : String) (o : Obj) :
    OwnershipEntry :=
  { object_id := o.id
    version := o.version
    checkpoint := checkpoint
    epoch := epoch
    timestamp_ms := timestamp_ms
    owner_type := some (get_owner_type o)
    owner_address := get_owner_address o
    object_status := st
    previous_transaction := o.previous_transaction
    coin_type := o.coin_type
    coin_balance := if o.coin_type.isSome then o.coin_value else 0
    previous_owner := none
    previous_version := none
    previous_checkpoint := none
    previous_coin_type := none
    previous_type := none }

/-- Lines 89-206, body of the output loop for one output object: the list
of entries pushed for it (empty when the object is not SUI-typed), or
`none` when the `.expect` on the Status Classifier panics. -/
def outputEntriesFor (epoch checkpoint timestamp_ms : Nat)
    (effects : TransactionEffects) (olds : List (String × OwnershipEntry))
    (o : Obj) : Option (List OwnershipEntry) :=
  if o.coin_type = some suiCoinType then
    match olds.find? (fun p => p.1 == o.id) with
    | some (_, old_entry) =>
      if old_entry.owner_address ≠ get_owner_address o then
        some [transferOutEntry epoch checkpoint timestamp_ms old_entry o,
              transferInEntry epoch checkpoint timestamp_ms old_entry o]
      else
        (effects.get_object_status o.id).map
          (fun st => [statusEntry epoch checkpoint timestamp_ms st o])
    | none =>
      (effects.get_object_status o.id).map
        (fun st => [statusEntry epoch checkpoint timestamp_ms st o])
  else
    some []

/-- Lines 212-229: the "DELETED" entry for a removed object whose id had a
snapshot. `version` is `u64::from(object_ref.1)` — the removal reference's
version, with no conversion; `previous_transaction` is the transaction's
own digest. -/
def deletedEntry (epoch checkpoint timestamp_ms : Nat) (txDigest : String)
    (old_entry : OwnershipEntry) (ref : String × Nat) : OwnershipEntry :=
  { object_id := ref.1
    version := ref.2
    checkpoint := checkpoint
    epoch := epoch
    timestamp_ms := timestamp_ms
    owner_type := old_entry.owner_type
    owner_address := old_entry.owner_address
    object_status := "DELETED"
    previous_transaction := txDigest
    coin_type := old_entry.coin_type
    coin_balance := 0
    previous_owner := none
    previous_version := none
    previous_checkpoint := none
    previous_coin_type := none
    previous_type := none }

/-- Lines 208-232, body of the removed loop for one removal reference: the
entries pushed for it (one when the id has a snapshot, none otherwise). -/
def removedEntriesFor (epoch checkpoint timestamp_ms : Nat) (txDigest : String)
    (olds : List (String × OwnershipEntry)) (ref : String × Nat) :
    List OwnershipEntry :=
  match olds.find? (fun p => p.1 == ref.1) with
  | some (_, old_entry) =>
      [deletedEntry epoch checkpoint timestamp_ms txDigest old_entry ref]
  | none => []

/-- The entries appended by the whole removed loop, in removal-list
order. -/
def removedLoopEntries (epoch checkpoint timestamp_ms : Nat) (txDigest : String)
    (olds : List (String × OwnershipEntry)) (removed : List (String × Nat)) :
    List OwnershipEntry :=
  removed.foldl
    (fun acc ref => acc ++ removedEntriesFor epoch checkpoint timestamp_ms txDigest olds ref)
    []

/-- Lines 47-235, `OwnershipHandler::process_transaction`: threads
`state.objects` through the output loop and then the removed loop,
appending entries in push order (the source builds `old_ownership_entries`
first and reads it in both loops; here it is written out at both use
sites). The handler (`self`) is received but its `package_filter` is never
read — exactly as in the source. Failure (`none`) models the `.expect`
panic on the Status Classifier. -/
def processTransaction (handler : OwnershipHandler)
    (epoch checkpoint timestamp_ms : Nat) (tx : CheckpointTransaction)
    (effects : TransactionEffects) (objects : List OwnershipEntry) :
    Option (List OwnershipEntry) :=
  (tx.output_objects.foldlM
    (fun acc o =>
      (fun l => acc ++ l) <$>
        outputEntriesFor epoch checkpoint timestamp_ms effects
          (buildOldEntries epoch checkpoint timestamp_ms tx.input_objects) o)
    objects).map
    (fun objs => effects.removed.foldl
      (fun acc ref => acc ++
        removedEntriesFor epoch checkpoint timestamp_ms tx.digest
          (buildOldEntries epoch checkpoint timestamp_ms tx.input_objects) ref)
      objs)

/-- The fresh entries one transaction contributes (with `effects` =
`tx.effects`, as at the call site in process_checkpoint). -/
def transactionEntries (epoch checkpoint timestamp_ms : Nat)
    (tx : CheckpointTransaction) : Option (List OwnershipEntry) :=
  (tx.output_objects.mapM
    (outputEntriesFor epoch checkpoint timestamp_ms tx.effects
      (buildOldEntries epoch checkpoint timestamp_ms tx.input_objects))).map
    (fun outsPer => outsPer.flatten ++
      removedLoopEntries epoch checkpoint timestamp_ms tx.digest
        (buildOldEntries epoch checkpoint timestamp_ms tx.input_objects)
        tx.effects.removed)

/-- Lines 242-263, `Worker::process_checkpoint`: locks the state, runs
process_transaction for every transaction in order (passing
`tx.effects`), and returns. The cache field is never touched — the source
contains no eviction call. -/
def processCheckpoint (handler : OwnershipHandler) (s : State)
    (cd : CheckpointData) : Option State :=
  (cd.transactions.foldlM
    (fun acc tx =>
      processTransaction handler cd.checkpoint_summary.epoch
        cd.checkpoint_summary.sequence_number cd.checkpoint_summary.timestamp_ms
        tx tx.effects acc)
    s.objects).map
    (fun objects => { objects := objects, cache := s.cache })

/-- Lines 268-273, `AnalyticsHandler::read`: clone the buffered entries,
clear the buffer, return the clone. -/
def read_and_clear (s : State) : List OwnershipEntry × State :=
  (s.objects, { s with objects := [] })

/-! ### Structural lemmas about the loops -/

/-- A foldlM that appends the result of each step equals mapM followed by
flatten. -/
theorem foldlM_append_eq {α β : Type} (F : α → Option (List β)) :
    ∀ (xs : List α) (acc : List β),
      xs.foldlM (fun acc x => (fun l => acc ++ l) <$> F x) acc =
        (fun ls : List (List β) => acc ++ ls.flatten) <$> xs.mapM F := by
  intro xs
  induction xs with
  | nil =>
    intro acc
    show some acc = some (acc ++ [])
    rw [List.append_nil]
  | cons x xs ih =>
    intro acc
    rw [List.foldlM_cons, List.mapM_cons]
    cases hF : F x with
    | none => rfl
    | some l =>
      show xs.foldlM (fun acc x => (fun l => acc ++ l) <$> F x) (acc ++ l) = _
      rw [ih]
      cases hM : xs.mapM F with
      | none => rfl
      | some ls => simp [List.append_assoc]

/-- A foldl that appends the image of each element equals appending the
flattened map. -/
theorem foldl_append_eq {α β : Type} (g : α → List β) :
    ∀ (xs : List α) (acc : List β),
      xs.foldl (fun acc x => acc ++ g x) acc = acc ++ (xs.map g).flatten := by
  intro xs
  induction xs with
  | nil => intro acc; simp
  | cons x xs ih =>
    intro acc
    rw [List.foldl_cons, ih, List.map_cons, List.flatten_cons, List.append_assoc]

/-- The removed loop is the flattened per-reference emission, in
removal-list order. -/
theorem removedLoopEntries_eq_flatten (epoch checkpoint timestamp_ms : Nat)
    (dg : String) (olds : List (String × OwnershipEntry))
    (removed : List (String × Nat)) :
    removedLoopEntries epoch checkpoint timestamp_ms dg olds removed =
      (removed.map (removedEntriesFor epoch checkpoint timestamp_ms dg olds)).flatten := by
  unfold removedLoopEntries
  rw [foldl_append_eq]
  rfl

/-- process_transaction, as the source computes it: the incoming entries,
then the output-loop entries in output order, then the removed-loop
entries. -/
theorem processTransaction_eq (handler : OwnershipHandler)
    (epoch checkpoint timestamp_ms : Nat) (tx : CheckpointTransaction)
    (effects : TransactionEffects) (objects : List OwnershipEntry) :
    processTransaction handler epoch checkpoint timestamp_ms tx effects objects =
      (fun ls : List (List OwnershipEntry) =>
        objects ++ ls.flatten ++
          removedLoopEntries epoch checkpoint timestamp_ms tx.digest
            (buildOldEntries epoch checkpoint timestamp_ms tx.input_objects)
            effects.removed) <$>
        tx.output_objects.mapM
          (outputEntriesFor epoch checkpoint timestamp_ms effects
            (buildOldEntries epoch checkpoint timestamp_ms tx.input_objects)) := by
  unfold processTransaction
  rw [foldlM_append_eq]
  cases hM : tx.output_objects.mapM
      (outputEntriesFor epoch checkpoint timestamp_ms effects
        (buildOldEntries epoch checkpoint timestamp_ms tx.input_objects)) with
  | none => rfl
  | some ls =>
    have hfold :
        effects.removed.foldl
          (fun acc ref => acc ++
            removedEntriesFor epoch checkpoint timestamp_ms tx.digest
              (buildOldEntries epoch checkpoint timestamp_ms tx.input_objects) ref)
          (objects ++ ls.flatten) =
        objects ++ ls.flatten ++
          removedLoopEntries epoch checkpoint timestamp_ms tx.digest
            (buildOldEntries epoch checkpoint timestamp_ms tx.input_objects)
            effects.removed := by
      rw [foldl_append_eq, removedLoopEntries_eq_flatten]
    exact congrArg some hfold

/-- On the arguments process_checkpoint uses (`effects := tx.effects`),
process_transaction appends exactly the transaction's fresh entries. -/
theorem processTransaction_entries (handler : OwnershipHandler)
    (epoch checkpoint timestamp_ms : Nat) (tx : CheckpointTransaction)
    (objects : List OwnershipEntry) :
    processTransaction handler epoch checkpoint timestamp_ms tx tx.effects objects =
      (fun l => objects ++ l) <$>
        transactionEntries epoch checkpoint timestamp_ms tx := by
  rw [processTransaction_eq]
  unfold transactionEntries
  cases hM : tx.output_objects.mapM
      (outputEntriesFor epoch checkpoint timestamp_ms tx.effects
        (buildOldEntries epoch checkpoint timestamp_ms tx.input_objects)) with
  | none => rfl
  | some ls =>
    exact congrArg some (List.append_assoc objects ls.flatten
      (removedLoopEntries epoch checkpoint timestamp_ms tx.digest
        (buildOldEntries epoch checkpoint timestamp_ms tx.input_objects)
        tx.effects.removed))

/-- process_checkpoint appends each transaction's fresh entries in
transaction order and leaves the cache untouched. -/
theorem processCheckpoint_eq (handler : OwnershipHandler) (s : State)
    (cd : CheckpointData) :
    processCheckpoint handler s cd =
      (fun perTx : List (List OwnershipEntry) =>
        State.mk (s.objects ++ perTx.flatten) s.cache) <$>
        cd.transactions.mapM
          (transactionEntries cd.checkpoint_summary.epoch
            cd.checkpoint_summary.sequence_number
            cd.checkpoint_summary.timestamp_ms) := by
  unfold processCheckpoint
  have hstep :
      (fun (acc : List OwnershipEntry) (tx : CheckpointTransaction) =>
        processTransaction handler cd.checkpoint_summary.epoch
          cd.checkpoint_summary.sequence_number cd.checkpoint_summary.timestamp_ms
          tx tx.effects acc) =
      (fun acc tx =>
        (fun l => acc ++ l) <$>
          transactionEntries cd.checkpoint_summary.epoch
            cd.checkpoint_summary.sequence_number
            cd.checkpoint_summary.timestamp_ms tx) := by
    funext acc tx
    exact processTransaction_entries handler _ _ _ tx acc
  rw [hstep, foldlM_append_eq]
  cases hM : cd.transactions.mapM
      (transactionEntries cd.checkpoint_summary.epoch
        cd.checkpoint_summary.sequence_number
        cd.checkpoint_summary.timestamp_ms) with
  | none => rfl
  | some ls => rfl

/-! ### Lemmas about individual emissions -/

/-- Output-loop evaluation, owner-change branch (lines 94-141). -/
theorem outputEntriesFor_transfer {epoch checkpoint timestamp_ms : Nat}
    {effects : TransactionEffects} {olds : List (String × OwnershipEntry)}
    {o : Obj} {pid : String} {old : OwnershipEntry}
    (hc : o.coin_type = some suiCoinType)
    (hfind : olds.find? (fun p => p.1 == o.id) = some (pid, old))
    (how : old.owner_address ≠ get_owner_address o) :
    outputEntriesFor epoch checkpoint timestamp_ms effects olds o =
      some [transferOutEntry epoch checkpoint timestamp_ms old o,
            transferInEntry epoch checkpoint timestamp_ms old o] := by
  unfold outputEntriesFor
  rw [if_pos hc, hfind]
  exact if_pos how

/-- Output-loop evaluation, same-owner branch (lines 142-172). -/
theorem outputEntriesFor_same {epoch checkpoint timestamp_ms : Nat}
    {effects : TransactionEffects} {olds : List (String × OwnershipEntry)}
    {o : Obj} {pid : String} {old : OwnershipEntry}
    (hc : o.coin_type = some suiCoinType)
    (hfind : olds.find? (fun p => p.1 == o.id) = some (pid, old))
    (how : old.owner_address = get_owner_address o) :
    outputEntriesFor epoch checkpoint timestamp_ms effects olds o =
      (effects.get_object_status o.id).map
        (fun st => [statusEntry epoch checkpoint timestamp_ms st o]) := by
  unfold outputEntriesFor
  rw [if_pos hc, hfind]
  exact if_neg (fun hne => hne how)

/-- Output-loop evaluation, no-snapshot branch (lines 174-204). -/
theorem outputEntriesFor_new {epoch checkpoint timestamp_ms : Nat}
    {effects : TransactionEffects} {olds : List (String × OwnershipEntry)}
    {o : Obj}
    (hc : o.coin_type = some suiCoinType)
    (hfind : olds.find? (fun p => p.1 == o.id) = none) :
    outputEntriesFor epoch checkpoint timestamp_ms effects olds o =
      (effects.get_object_status o.id).map
        (fun st => [statusEntry epoch checkpoint timestamp_ms st o]) := by
  unfold outputEntriesFor
  rw [if_pos hc, hfind]

/-- Output-loop evaluation: a non-SUI-typed object contributes nothing. -/
theorem outputEntriesFor_skip {epoch checkpoint timestamp_ms : Nat}
    {effects : TransactionEffects} {olds : List (String × OwnershipEntry)}
    {o : Obj}
    (hc : ¬o.coin_type = some suiCoinType) :
    outputEntriesFor epoch checkpoint timestamp_ms effects olds o = some [] := by
  unfold outputEntriesFor
  rw [if_neg hc]

/-- Complete case analysis of one output object's emission. -/
theorem outputEntriesFor_shape {epoch checkpoint timestamp_ms : Nat}
    {effects : TransactionEffects} {olds : List (String × OwnershipEntry)}
    {o : Obj} {l : List OwnershipEntry}
    (h : outputEntriesFor epoch checkpoint timestamp_ms effects olds o = some l) :
    (¬o.coin_type = some suiCoinType ∧ l = []) ∨
    (o.coin_type = some suiCoinType ∧
      ((∃ pid old, olds.find? (fun p => p.1 == o.id) = some (pid, old) ∧
          old.owner_address ≠ get_owner_address o ∧
          l = [transferOutEntry epoch checkpoint timestamp_ms old o,
               transferInEntry epoch checkpoint timestamp_ms old o]) ∨
       (∃ pid old st, olds.find? (fun p => p.1 == o.id) = some (pid, old) ∧
          old.owner_address = get_owner_address o ∧
          effects.get_object_status o.id = some st ∧
          l = [statusEntry epoch checkpoint timestamp_ms st o]) ∨
       (∃ st, olds.find? (fun p => p.1 == o.id) = none ∧
          effects.get_object_status o.id = some st ∧
          l = [statusEntry epoch checkpoint timestamp_ms st o]))) := by
  by_cases hc : o.coin_type = some suiCoinType
  · right
    refine ⟨hc, ?_⟩
    cases hfind : olds.find? (fun p => p.1 == o.id) with
    | some p =>
      obtain ⟨pid, old⟩ := p
      by_cases how : old.owner_address = get_owner_address o
      · right; left
        rw [outputEntriesFor_same hc hfind how] at h
        cases hst : effects.get_object_status o.id with
        | none => rw [hst] at h; cases h
        | some st =>
          rw [hst] at h
          exact ⟨pid, old, st, rfl, how, rfl, (Option.some_inj.mp h).symm⟩
      · left
        rw [outputEntriesFor_transfer hc hfind how] at h
        exact ⟨pid, old, rfl, how, (Option.some_inj.mp h).symm⟩
    | none =>
      right; right
      rw [outputEntriesFor_new hc hfind] at h
      cases hst : effects.get_object_status o.id with
      | none => rw [hst] at h; cases h
      | some st =>
        rw [hst] at h
        exact ⟨st, rfl, rfl, (Option.some_inj.mp h).symm⟩
  · left
    rw [outputEntriesFor_skip hc] at h
    exact ⟨hc, (Option.some_inj.mp h).symm⟩

/-- Every snapshot pair in `old_ownership_entries` comes from a SUI-typed
input object and is its `mkOldEntry`. -/
theorem mem_buildOldEntries {epoch checkpoint timestamp_ms : Nat}
    {inputs : List Obj} {p : String × OwnershipEntry}
    (h : p ∈ buildOldEntries epoch checkpoint timestamp_ms inputs) :
    ∃ i, i ∈ inputs ∧ i.coin_type = some suiCoinType ∧
      p = (i.id, mkOldEntry epoch checkpoint timestamp_ms i) := by
  unfold buildOldEntries at h
  obtain ⟨i, hi, hp⟩ := List.mem_map.mp h
  obtain ⟨hin, hc⟩ := List.mem_filter.mp hi
  exact ⟨i, hin, by simpa using hc, hp.symm⟩

/-- The snapshot found for an id has SUI coin type and a present owner
classification. -/
theorem find_buildOldEntries_fields {epoch checkpoint timestamp_ms : Nat}
    {inputs : List Obj} {key pid : String} {old : OwnershipEntry}
    (h : (buildOldEntries epoch checkpoint timestamp_ms inputs).find?
        (fun p => p.1 == key) = some (pid, old)) :
    old.coin_type = some suiCoinType ∧ old.owner_type.isSome = true := by
  obtain ⟨i, _, hic, hpe⟩ := mem_buildOldEntries (List.mem_of_find?_eq_some h)
  have hold : old = mkOldEntry epoch checkpoint timestamp_ms i := by
    have := congrArg Prod.snd hpe
    simpa using this
  subst hold
  unfold mkOldEntry
  simp [hic]

/-- Entries emitted for one output object all carry the SUI coin type. -/
theorem outputEntriesFor_sui {epoch checkpoint timestamp_ms : Nat}
    {effects : TransactionEffects} {olds : List (String × OwnershipEntry)}
    {o : Obj} {l : List OwnershipEntry}
    (h : outputEntriesFor epoch checkpoint timestamp_ms effects olds o = some l) :
    ∀ e ∈ l, e.coin_type = some suiCoinType := by
  intro e he
  rcases outputEntriesFor_shape h with ⟨hc, rfl⟩ | ⟨hc, hcase⟩
  · cases he
  · rcases hcase with ⟨pid, old, _, _, rfl⟩ | ⟨pid, old, st, _, _, _, rfl⟩ |
      ⟨st, _, _, rfl⟩
    · simp only [List.mem_cons, List.not_mem_nil, or_false] at he
      rcases he with rfl | rfl
      · exact hc
      · exact hc
    · simp only [List.mem_cons, List.not_mem_nil, or_false] at he
      rcases he with rfl
      exact hc
    · simp only [List.mem_cons, List.not_mem_nil, or_false] at he
      rcases he with rfl
      exact hc

/-- Removed-loop evaluation for one reference: a snapshot hit yields the
single deleted entry. -/
theorem removedEntriesFor_found {epoch checkpoint timestamp_ms : Nat}
    {dg : String} {olds : List (String × OwnershipEntry)} {r : String × Nat}
    {pid : String} {old : OwnershipEntry}
    (hfind : olds.find? (fun p => p.1 == r.1) = some (pid, old)) :
    removedEntriesFor epoch checkpoint timestamp_ms dg olds r =
      [deletedEntry epoch checkpoint timestamp_ms dg old r] := by
  unfold removedEntriesFor
  rw [hfind]

/-- Removed-loop evaluation for one reference: no snapshot, no entry. -/
theorem removedEntriesFor_not_found {epoch checkpoint timestamp_ms : Nat}
    {dg : String} {olds : List (String × OwnershipEntry)} {r : String × Nat}
    (hfind : olds.find? (fun p => p.1 == r.1) = none) :
    removedEntriesFor epoch checkpoint timestamp_ms dg olds r = [] := by
  unfold removedEntriesFor
  rw [hfind]

/-- Every entry emitted by the removed loop for one reference is the
deleted entry of a found snapshot. -/
theorem removedEntriesFor_mem {epoch checkpoint timestamp_ms : Nat}
    {dg : String} {olds : List (String × OwnershipEntry)} {r : String × Nat}
    {e : OwnershipEntry}
    (h : e ∈ removedEntriesFor epoch checkpoint timestamp_ms dg olds r) :
    ∃ pid old, olds.find? (fun p => p.1 == r.1) = some (pid, old) ∧
      e = deletedEntry epoch checkpoint timestamp_ms dg old r := by
  cases hfind : olds.find? (fun p => p.1 == r.1) with
  | none =>
    rw [removedEntriesFor_not_found hfind] at h
    cases h
  | some p =>
    obtain ⟨pid, old⟩ := p
    rw [removedEntriesFor_found hfind] at h
    simp only [List.mem_cons, List.not_mem_nil, or_false] at h
    exact ⟨pid, old, rfl, h⟩

/-- Membership through a successful mapM: every element of the result list
is the image of some element of the input list. -/
theorem mapM_mem {α β : Type} {F : α → Option β} :
    ∀ {xs : List α} {ys : List β}, xs.mapM F = some ys →
      ∀ y ∈ ys, ∃ x ∈ xs, F x = some y := by
  intro xs
  induction xs with
  | nil =>
    intro ys h y hy
    rw [List.mapM_nil] at h
    obtain rfl := Option.some_inj.mp h
    cases hy
  | cons x xs ih =>
    intro ys h y hy
    rw [List.mapM_cons] at h
    cases hF : F x with
    | none => rw [hF] at h; cases h
    | some b =>
      rw [hF] at h
      cases hM : xs.mapM F with
      | none => rw [hM] at h; cases h
      | some bs =>
        rw [hM] at h
        obtain rfl := Option.some_inj.mp h
        rcases List.mem_cons.mp hy with rfl | hy2
        · exact ⟨x, List.mem_cons_self x xs, hF⟩
        · obtain ⟨x2, hx2, hFx2⟩ := ih hM y hy2
          exact ⟨x2, List.mem_cons_of_mem x hx2, hFx2⟩

/-- Every entry the removed loop pushes carries the DELETED status. -/
theorem removedLoopEntries_status {epoch checkpoint timestamp_ms : Nat}
    {dg : String} {olds : List (String × OwnershipEntry)}
    {removed : List (String × Nat)} :
    ∀ e ∈ removedLoopEntries epoch checkpoint timestamp_ms dg olds removed,
      e.object_status = "DELETED" := by
  intro e he
  rw [removedLoopEntries_eq_flatten] at he
  obtain ⟨l, hl, hel⟩ := List.mem_flatten.mp he
  obtain ⟨r, hr, rfl⟩ := List.mem_map.mp hl
  obtain ⟨pid, old, _, rfl⟩ := removedEntriesFor_mem hel
  rfl

/-- When the snapshots come from the input filter, every entry the removed
loop pushes carries the SUI coin type. -/
theorem removedLoopEntries_sui {epoch checkpoint timestamp_ms : Nat}
    {dg : String} {inputs : List Obj} {removed : List (String × Nat)} :
    ∀ e ∈ removedLoopEntries epoch checkpoint timestamp_ms dg
        (buildOldEntries epoch checkpoint timestamp_ms inputs) removed,
      e.coin_type = some suiCoinType := by
  intro e he
  rw [removedLoopEntries_eq_flatten] at he
  obtain ⟨l, hl, hel⟩ := List.mem_flatten.mp he
  obtain ⟨r, hr, rfl⟩ := List.mem_map.mp hl
  obtain ⟨pid, old, hfind, rfl⟩ := removedEntriesFor_mem hel
  exact (find_buildOldEntries_fields hfind).1

/-! ### Claim theorems -/

/-- Claim C7: calling the drain read twice in a row with no intervening
process_checkpoint returns the buffered entries the first time and an
empty sequence the second time, leaving the accumulator empty. -/
theorem drain_idempotent (s : State) :
    (read_and_clear s).1 = s.objects ∧
    ((read_and_clear s).2).objects = [] ∧
    (read_and_clear ((read_and_clear s).2)).1 = [] :=
  ⟨rfl, rfl, rfl⟩

/-- Claim C6 (code bug): a checkpoint whose summary sets the end-of-epoch
flag is processed without any eviction — the protocol package address 0x2,
cached beforehand, is still cached afterwards, although the bulk eviction
the spec requires would have removed every protocol package address from
the cache. -/
theorem no_epoch_eviction :
    processCheckpoint ⟨none⟩ ⟨[], ["0x2"]⟩ ⟨⟨5, 10, 1000, true⟩, []⟩ =
      some ⟨[], ["0x2"]⟩ ∧
    evict ["0x2"] SYSTEM_PACKAGE_ADDRESSES = [] :=
  ⟨rfl, by decide⟩

/-- Claim C9 (code bug): a transaction whose effects remove, at version
2^63, an object with an in-window SUI input snapshot is processed
successfully and emits a Deleted entry whose version is 2^63 — a value
that does not fit the signed 64-bit `version` column of the ownership
schema. The claim requires checkpoint processing to fail with an error
instead; the code performs no range check on this path
(`u64::from(object_ref.1)`) and emits the entry. -/
theorem unchecked_version_narrowing :
    (processTransaction ⟨none⟩ 1 2 3
        ⟨[⟨"0xb", 3, some suiCoinType, 10, "AddressOwner", some ("0xa1"), "t0"⟩], [],
          ⟨[], [], [], ["0xb"], [], [("0xb", 9223372036854775808)]⟩, "d"⟩
        ⟨[], [], [], ["0xb"], [], [("0xb", 9223372036854775808)]⟩ []).map
      (fun l => l.map OwnershipEntry.version) = some [9223372036854775808] ∧
    ¬fitsInI64 9223372036854775808 :=
  ⟨rfl, by decide⟩

/-- Claim C8: within a transaction, the entries pushed by the removed loop
(all with DELETED status) come after all output-derived entries; across
the transactions of a checkpoint the appended entries preserve transaction
order; and the previously accumulated entries always remain an unchanged
prefix — nothing is replaced or removed. -/
theorem append_ordering :
    (∀ (handler : OwnershipHandler) (epoch checkpoint timestamp_ms : Nat)
        (tx : CheckpointTransaction) (effects : TransactionEffects)
        (objects out : List OwnershipEntry),
      processTransaction handler epoch checkpoint timestamp_ms tx effects objects =
          some out →
      ∃ outsPer : List (List OwnershipEntry),
        tx.output_objects.mapM
          (outputEntriesFor epoch checkpoint timestamp_ms effects
            (buildOldEntries epoch checkpoint timestamp_ms tx.input_objects)) =
          some outsPer ∧
        out = objects ++ outsPer.flatten ++
          removedLoopEntries epoch checkpoint timestamp_ms tx.digest
            (buildOldEntries epoch checkpoint timestamp_ms tx.input_objects)
            effects.removed ∧
        ∀ e ∈ removedLoopEntries epoch checkpoint timestamp_ms tx.digest
            (buildOldEntries epoch checkpoint timestamp_ms tx.input_objects)
            effects.removed,
          e.object_status = "DELETED") ∧
    (∀ (handler : OwnershipHandler) (s : State) (cd : CheckpointData) (s' : State),
      processCheckpoint handler s cd = some s' →
      ∃ perTx : List (List OwnershipEntry),
        cd.transactions.mapM
          (transactionEntries cd.checkpoint_summary.epoch
            cd.checkpoint_summary.sequence_number
            cd.checkpoint_summary.timestamp_ms) = some perTx ∧
        s'.objects = s.objects ++ perTx.flatten) := by
  constructor
  · intro handler epoch checkpoint timestamp_ms tx effects objects out h
    rw [processTransaction_eq] at h
    cases hM : tx.output_objects.mapM
        (outputEntriesFor epoch checkpoint timestamp_ms effects
          (buildOldEntries epoch checkpoint timestamp_ms tx.input_objects)) with
    | none => rw [hM] at h; cases h
    | some ls =>
      rw [hM] at h
      exact ⟨ls, rfl, (Option.some_inj.mp h).symm, removedLoopEntries_status⟩
  · intro handler s cd s' h
    rw [processCheckpoint_eq] at h
    cases hM : cd.transactions.mapM
        (transactionEntries cd.checkpoint_summary.epoch
          cd.checkpoint_summary.sequence_number
          cd.checkpoint_summary.timestamp_ms) with
    | none => rw [hM] at h; cases h
    | some perTx =>
      rw [hM] at h
      obtain rfl := Option.some_inj.mp h
      exact ⟨perTx, rfl, rfl⟩

/-- Witness for C8: both parts applied at a concrete transaction and a
concrete checkpoint. -/
theorem append_ordering_witness :
    (processTransaction ⟨none⟩ 0 0 0 ⟨[], [], ⟨[], [], [], [], [], []⟩, "d"⟩
        ⟨[], [], [], [], [], []⟩ [] = some [] ∧
      ∃ outsPer : List (List OwnershipEntry),
        ([] : List Obj).mapM
          (outputEntriesFor 0 0 0 ⟨[], [], [], [], [], []⟩
            (buildOldEntries 0 0 0 [])) = some outsPer ∧
        ([] : List OwnershipEntry) = [] ++ outsPer.flatten ++
          removedLoopEntries 0 0 0 ("d") (buildOldEntries 0 0 0 []) [] ∧
        ∀ e ∈ removedLoopEntries 0 0 0 ("d") (buildOldEntries 0 0 0 []) [],
          e.object_status = "DELETED") ∧
    (processCheckpoint ⟨none⟩ ⟨[], []⟩ ⟨⟨0, 0, 0, false⟩, []⟩ = some ⟨[], []⟩ ∧
      ∃ perTx : List (List OwnershipEntry),
        ([] : List CheckpointTransaction).mapM (transactionEntries 0 0 0) =
          some perTx ∧
        ([] : List OwnershipEntry) = [] ++ perTx.flatten) :=
  ⟨⟨rfl, append_ordering.1 ⟨none⟩ 0 0 0 ⟨[], [], ⟨[], [], [], [], [], []⟩, "d"⟩
      ⟨[], [], [], [], [], []⟩ [] [] rfl⟩,
   ⟨rfl, append_ordering.2 ⟨none⟩ ⟨[], []⟩ ⟨⟨0, 0, 0, false⟩, []⟩ ⟨[], []⟩ rfl⟩⟩

/-- Claim C10: every entry appended by process_transaction, of any status
(Deleted included), carries coin_type = some ("0x2::sui::SUI") — only SUI
coin objects produce records. -/
theorem entries_coin_type_sui (handler : OwnershipHandler)
    (epoch checkpoint timestamp_ms : Nat) (tx : CheckpointTransaction)
    (effects : TransactionEffects) (objects out : List OwnershipEntry)
    (h : processTransaction handler epoch checkpoint timestamp_ms tx effects
        objects = some out) :
    ∃ fresh : List OwnershipEntry, out = objects ++ fresh ∧
      ∀ e ∈ fresh, e.coin_type = some suiCoinType := by
  rw [processTransaction_eq] at h
  cases hM : tx.output_objects.mapM
      (outputEntriesFor epoch checkpoint timestamp_ms effects
        (buildOldEntries epoch checkpoint timestamp_ms tx.input_objects)) with
  | none => rw [hM] at h; cases h
  | some ls =>
    rw [hM] at h
    obtain rfl := (Option.some_inj.mp h).symm
    refine ⟨ls.flatten ++
      removedLoopEntries epoch checkpoint timestamp_ms tx.digest
        (buildOldEntries epoch checkpoint timestamp_ms tx.input_objects)
        effects.removed, List.append_assoc _ _ _, ?_⟩
    intro e he
    rcases List.mem_append.mp he with he2 | he2
    · obtain ⟨l, hl, hel⟩ := List.mem_flatten.mp he2
      obtain ⟨o, ho, hFo⟩ := mapM_mem hM l hl
      exact outputEntriesFor_sui hFo e hel
    · exact removedLoopEntries_sui e he2

/-- Witness for C10: applied at a transaction that emits one Created
entry. -/
theorem entries_coin_type_sui_witness :
    processTransaction ⟨none⟩ 0 0 0
        ⟨[], [⟨"0xd", 1, some suiCoinType, 50, "AddressOwner", some ("0xa1"), "t0"⟩],
          ⟨["0xd"], [], [], [], [], []⟩, "d3"⟩
        ⟨["0xd"], [], [], [], [], []⟩ [] =
      some [statusEntry 0 0 0 ("Created")
        ⟨"0xd", 1, some suiCoinType, 50, "AddressOwner", some ("0xa1"), "t0"⟩] ∧
    ∃ fresh : List OwnershipEntry,
      [statusEntry 0 0 0 ("Created")
          ⟨"0xd", 1, some suiCoinType, 50, "AddressOwner", some ("0xa1"), "t0"⟩] =
        [] ++ fresh ∧
      ∀ e ∈ fresh, e.coin_type = some suiCoinType :=
  ⟨rfl, entries_coin_type_sui ⟨none⟩ 0 0 0
    ⟨[], [⟨"0xd", 1, some suiCoinType, 50, "AddressOwner", some ("0xa1"), "t0"⟩],
      ⟨["0xd"], [], [], [], [], []⟩, "d3"⟩
    ⟨["0xd"], [], [], [], [], []⟩ [] _ rfl⟩

/-- Claim C1 (counterexample): an owner change from a snapshot whose owner
address is absent (e.g. a shared object) emits a "Transfer Out" entry
whose previous_owner field is null — the claim demands non-null
previous_* fields on every "Transfer Out" entry. -/
theorem transfer_out_null_previous_owner_cex :
    (processTransaction ⟨none⟩ 5 7 9
        ⟨[⟨"0xa", 3, some suiCoinType, 100, "Shared", none, "t0"⟩],
         [⟨"0xa", 4, some suiCoinType, 100, "AddressOwner", some ("0xb0b"), "t0"⟩],
         ⟨[], [], [], [], [], []⟩, "d1"⟩ ⟨[], [], [], [], [], []⟩ []).map
      (fun l => l.map (fun e => (e.object_status, e.previous_owner))) =
      some [("Transfer Out", none), ("Transfer In", none)] := rfl

/-- Claim C1 (amended): a tracked output object whose in-window snapshot
has a different owner address yields exactly the pair "Transfer Out" then
"Transfer In"; the "Transfer Out" entry has coin_balance = 0 and its
previous_* fields are copied from the snapshot — previous_version,
previous_checkpoint, previous_coin_type and previous_type are non-null,
while previous_owner equals the snapshot's owner_address and is null
exactly when that address was null. -/
theorem transfer_pair_amended (epoch checkpoint timestamp_ms : Nat)
    (effects : TransactionEffects) (inputs : List Obj) (o : Obj)
    (pid : String) (old : OwnershipEntry)
    (hc : o.coin_type = some suiCoinType)
    (hfind : (buildOldEntries epoch checkpoint timestamp_ms inputs).find?
        (fun p => p.1 == o.id) = some (pid, old))
    (how : old.owner_address ≠ get_owner_address o) :
    ∃ eOut eIn : OwnershipEntry,
      outputEntriesFor epoch checkpoint timestamp_ms effects
        (buildOldEntries epoch checkpoint timestamp_ms inputs) o =
        some [eOut, eIn] ∧
      eOut.object_status = "Transfer Out" ∧ eIn.object_status = "Transfer In" ∧
      eOut.coin_balance = 0 ∧
      eOut.previous_owner = old.owner_address ∧
      eOut.previous_version = some old.version ∧
      eOut.previous_checkpoint = some old.checkpoint ∧
      eOut.previous_coin_type = old.coin_type ∧
      old.coin_type = some suiCoinType ∧
      eOut.previous_type = old.owner_type ∧
      old.owner_type.isSome = true ∧
      eIn.previous_owner = old.owner_address ∧
      eIn.previous_version = some old.version ∧
      eIn.previous_checkpoint = some old.checkpoint ∧
      eIn.previous_coin_type = old.coin_type ∧
      eIn.previous_type = old.owner_type := by
  obtain ⟨hcoin, htype⟩ := find_buildOldEntries_fields hfind
  exact ⟨transferOutEntry epoch checkpoint timestamp_ms old o,
    transferInEntry epoch checkpoint timestamp_ms old o,
    outputEntriesFor_transfer hc hfind how,
    rfl, rfl, rfl, rfl, rfl, rfl, rfl, hcoin, rfl, htype, rfl, rfl, rfl, rfl, rfl⟩

/-- Witness for the amended C1: a concrete owner change from address 0xa1
to address 0xb0b. -/
theorem transfer_pair_amended_witness :
    ((⟨"0xa", 4, some suiCoinType, 100, "AddressOwner", some ("0xb0b"), "t0"⟩ :
        Obj).coin_type = some suiCoinType) ∧
    ((buildOldEntries 5 7 9
        [⟨"0xa", 3, some suiCoinType, 100, "AddressOwner", some ("0xa1"), "t0"⟩]).find?
        (fun p => p.1 ==
          (⟨"0xa", 4, some suiCoinType, 100, "AddressOwner", some ("0xb0b"), "t0"⟩ :
            Obj).id) =
      some ("0xa", mkOldEntry 5 7 9
        ⟨"0xa", 3, some suiCoinType, 100, "AddressOwner", some ("0xa1"), "t0"⟩)) ∧
    ((mkOldEntry 5 7 9
        ⟨"0xa", 3, some suiCoinType, 100, "AddressOwner", some ("0xa1"), "t0"⟩).owner_address ≠
      get_owner_address
        ⟨"0xa", 4, some suiCoinType, 100, "AddressOwner", some ("0xb0b"), "t0"⟩) ∧
    (∃ eOut eIn : OwnershipEntry,
      outputEntriesFor 5 7 9 ⟨[], [], [], [], [], []⟩
        (buildOldEntries 5 7 9
          [⟨"0xa", 3, some suiCoinType, 100, "AddressOwner", some ("0xa1"), "t0"⟩])
        ⟨"0xa", 4, some suiCoinType, 100, "AddressOwner", some ("0xb0b"), "t0"⟩ =
        some [eOut, eIn] ∧
      eOut.object_status = "Transfer Out" ∧ eIn.object_status = "Transfer In" ∧
      eOut.coin_balance = 0 ∧
      eOut.previous_owner = (mkOldEntry 5 7 9
        ⟨"0xa", 3, some suiCoinType, 100, "AddressOwner", some ("0xa1"), "t0"⟩).owner_address ∧
      eOut.previous_version = some (mkOldEntry 5 7 9
        ⟨"0xa", 3, some suiCoinType, 100, "AddressOwner", some ("0xa1"), "t0"⟩).version ∧
      eOut.previous_checkpoint = some (mkOldEntry 5 7 9
        ⟨"0xa", 3, some suiCoinType, 100, "AddressOwner", some ("0xa1"), "t0"⟩).checkpoint ∧
      eOut.previous_coin_type = (mkOldEntry 5 7 9
        ⟨"0xa", 3, some suiCoinType, 100, "AddressOwner", some ("0xa1"), "t0"⟩).coin_type ∧
      (mkOldEntry 5 7 9
        ⟨"0xa", 3, some suiCoinType, 100, "AddressOwner", some ("0xa1"), "t0"⟩).coin_type =
        some suiCoinType ∧
      eOut.previous_type = (mkOldEntry 5 7 9
        ⟨"0xa", 3, some suiCoinType, 100, "AddressOwner", some ("0xa1"), "t0"⟩).owner_type ∧
      (mkOldEntry 5 7 9
        ⟨"0xa", 3, some suiCoinType, 100, "AddressOwner", some ("0xa1"), "t0"⟩).owner_type.isSome =
        true ∧
      eIn.previous_owner = (mkOldEntry 5 7 9
        ⟨"0xa", 3, some suiCoinType, 100, "AddressOwner", some ("0xa1"), "t0"⟩).owner_address ∧
      eIn.previous_version = some (mkOldEntry 5 7 9
        ⟨"0xa", 3, some suiCoinType, 100, "AddressOwner", some ("0xa1"), "t0"⟩).version ∧
      eIn.previous_checkpoint = some (mkOldEntry 5 7 9
        ⟨"0xa", 3, some suiCoinType, 100, "AddressOwner", some ("0xa1"), "t0"⟩).checkpoint ∧
      eIn.previous_coin_type = (mkOldEntry 5 7 9
        ⟨"0xa", 3, some suiCoinType, 100, "AddressOwner", some ("0xa1"), "t0"⟩).coin_type ∧
      eIn.previous_type = (mkOldEntry 5 7 9
        ⟨"0xa", 3, some suiCoinType, 100, "AddressOwner", some ("0xa1"), "t0"⟩).owner_type) :=
  ⟨rfl, rfl, by decide,
    transfer_pair_amended 5 7 9 ⟨[], [], [], [], [], []⟩
      [⟨"0xa", 3, some suiCoinType, 100, "AddressOwner", some ("0xa1"), "t0"⟩]
      ⟨"0xa", 4, some suiCoinType, 100, "AddressOwner", some ("0xb0b"), "t0"⟩
      "0xa"
      (mkOldEntry 5 7 9
        ⟨"0xa", 3, some suiCoinType, 100, "AddressOwner", some ("0xa1"), "t0"⟩)
      rfl rfl (by decide)⟩

/-- Claim C3: a tracked output object with no prior in-window snapshot
contributes exactly one entry, whose status is the Status Classifier's
verdict and whose previous_* fields are all null. -/
theorem created_entry_spec (epoch checkpoint timestamp_ms : Nat)
    (effects : TransactionEffects) (olds : List (String × OwnershipEntry))
    (o : Obj) (l : List OwnershipEntry)
    (hc : o.coin_type = some suiCoinType)
    (hfind : olds.find? (fun p => p.1 == o.id) = none)
    (h : outputEntriesFor epoch checkpoint timestamp_ms effects olds o = some l) :
    ∃ e : OwnershipEntry, l = [e] ∧
      effects.get_object_status o.id = some e.object_status ∧
      e.previous_owner = none ∧ e.previous_version = none ∧
      e.previous_checkpoint = none ∧ e.previous_coin_type = none ∧
      e.previous_type = none := by
  rw [outputEntriesFor_new hc hfind] at h
  cases hst : effects.get_object_status o.id with
  | none => rw [hst] at h; cases h
  | some st =>
    rw [hst] at h
    obtain rfl := (Option.some_inj.mp h).symm
    exact ⟨statusEntry epoch checkpoint timestamp_ms st o,
      rfl, rfl, rfl, rfl, rfl, rfl, rfl⟩

/-- Witness for C3: a freshly created SUI coin. -/
theorem created_entry_spec_witness :
    ((⟨"0xd", 1, some suiCoinType, 50, "AddressOwner", some ("0xa1"), "t0"⟩ :
        Obj).coin_type = some suiCoinType) ∧
    (([] : List (String × OwnershipEntry)).find?
      (fun p => p.1 ==
        (⟨"0xd", 1, some suiCoinType, 50, "AddressOwner", some ("0xa1"), "t0"⟩ :
          Obj).id) = none) ∧
    (outputEntriesFor 0 0 0 ⟨["0xd"], [], [], [], [], []⟩ []
        ⟨"0xd", 1, some suiCoinType, 50, "AddressOwner", some ("0xa1"), "t0"⟩ =
      some [statusEntry 0 0 0 ("Created")
        ⟨"0xd", 1, some suiCoinType, 50, "AddressOwner", some ("0xa1"), "t0"⟩]) ∧
    (∃ e : OwnershipEntry,
      [statusEntry 0 0 0 ("Created")
        ⟨"0xd", 1, some suiCoinType, 50, "AddressOwner", some ("0xa1"), "t0"⟩] = [e] ∧
      TransactionEffects.get_object_status ⟨["0xd"], [], [], [], [], []⟩
        (⟨"0xd", 1, some suiCoinType, 50, "AddressOwner", some ("0xa1"), "t0"⟩ :
          Obj).id = some e.object_status ∧
      e.previous_owner = none ∧ e.previous_version = none ∧
      e.previous_checkpoint = none ∧ e.previous_coin_type = none ∧
      e.previous_type = none) :=
  ⟨rfl, rfl, rfl,
    created_entry_spec 0 0 0 ⟨["0xd"], [], [], [], [], []⟩ []
      ⟨"0xd", 1, some suiCoinType, 50, "AddressOwner", some ("0xa1"), "t0"⟩ _
      rfl rfl rfl⟩

/-- Claim C4: a tracked output object whose in-window snapshot has the
same owner address contributes exactly one entry, carrying the object's
current balance and owner, with all previous_* fields null. -/
theorem mutated_entry_spec (epoch checkpoint timestamp_ms : Nat)
    (effects : TransactionEffects) (olds : List (String × OwnershipEntry))
    (o : Obj) (pid : String) (old : OwnershipEntry) (l : List OwnershipEntry)
    (hc : o.coin_type = some suiCoinType)
    (hfind : olds.find? (fun p => p.1 == o.id) = some (pid, old))
    (how : old.owner_address = get_owner_address o)
    (h : outputEntriesFor epoch checkpoint timestamp_ms effects olds o = some l) :
    ∃ e : OwnershipEntry, l = [e] ∧
      e.coin_balance = o.coin_value ∧
      e.owner_address = get_owner_address o ∧
      e.previous_owner = none ∧ e.previous_version = none ∧
      e.previous_checkpoint = none ∧ e.previous_coin_type = none ∧
      e.previous_type = none := by
  rw [outputEntriesFor_same hc hfind how] at h
  cases hst : effects.get_object_status o.id with
  | none => rw [hst] at h; cases h
  | some st =>
    rw [hst] at h
    obtain rfl := (Option.some_inj.mp h).symm
    refine ⟨statusEntry epoch checkpoint timestamp_ms st o,
      rfl, ?_, rfl, rfl, rfl, rfl, rfl, rfl⟩
    show (if o.coin_type.isSome then o.coin_value else 0) = o.coin_value
    rw [hc]
    rfl

/-- Witness for C4: a same-owner balance mutation. -/
theorem mutated_entry_spec_witness :
    ((⟨"0xa", 4, some suiCoinType, 60, "AddressOwner", some ("0xa1"), "t0"⟩ :
        Obj).coin_type = some suiCoinType) ∧
    (([("0xa", mkOldEntry 1 2 3
        ⟨"0xa", 3, some suiCoinType, 100, "AddressOwner", some ("0xa1"), "t0"⟩)]).find?
      (fun p => p.1 ==
        (⟨"0xa", 4, some suiCoinType, 60, "AddressOwner", some ("0xa1"), "t0"⟩ :
          Obj).id) =
      some ("0xa", mkOldEntry 1 2 3
        ⟨"0xa", 3, some suiCoinType, 100, "AddressOwner", some ("0xa1"), "t0"⟩)) ∧
    ((mkOldEntry 1 2 3
        ⟨"0xa", 3, some suiCoinType, 100, "AddressOwner", some ("0xa1"), "t0"⟩).owner_address =
      get_owner_address
        ⟨"0xa", 4, some suiCoinType, 60, "AddressOwner", some ("0xa1"), "t0"⟩) ∧
    (outputEntriesFor 1 2 3 ⟨[], ["0xa"], [], [], [], []⟩
        [("0xa", mkOldEntry 1 2 3
          ⟨"0xa", 3, some suiCoinType, 100, "AddressOwner", some ("0xa1"), "t0"⟩)]
        ⟨"0xa", 4, some suiCoinType, 60, "AddressOwner", some ("0xa1"), "t0"⟩ =
      some [statusEntry 1 2 3 ("Mutated")
        ⟨"0xa", 4, some suiCoinType, 60, "AddressOwner", some ("0xa1"), "t0"⟩]) ∧
    (∃ e : OwnershipEntry,
      [statusEntry 1 2 3 ("Mutated")
        ⟨"0xa", 4, some suiCoinType, 60, "AddressOwner", some ("0xa1"), "t0"⟩] = [e] ∧
      e.coin_balance =
        (⟨"0xa", 4, some suiCoinType, 60, "AddressOwner", some ("0xa1"), "t0"⟩ :
          Obj).coin_value ∧
      e.owner_address = get_owner_address
        ⟨"0xa", 4, some suiCoinType, 60, "AddressOwner", some ("0xa1"), "t0"⟩ ∧
      e.previous_owner = none ∧ e.previous_version = none ∧
      e.previous_checkpoint = none ∧ e.previous_coin_type = none ∧
      e.previous_type = none) :=
  ⟨rfl, rfl, rfl, rfl,
    mutated_entry_spec 1 2 3 ⟨[], ["0xa"], [], [], [], []⟩
      [("0xa", mkOldEntry 1 2 3
        ⟨"0xa", 3, some suiCoinType, 100, "AddressOwner", some ("0xa1"), "t0"⟩)]
      ⟨"0xa", 4, some suiCoinType, 60, "AddressOwner", some ("0xa1"), "t0"⟩
      "0xa"
      (mkOldEntry 1 2 3
        ⟨"0xa", 3, some suiCoinType, 100, "AddressOwner", some ("0xa1"), "t0"⟩)
      _ rfl rfl rfl rfl⟩

/-- Claim C5 (counterexample): with no filter configured, a routed non-SUI
object yields no entries; with a package filter 0xdead configured, a SUI
coin object (package 0x2, not matching the filter) still yields an
entry — the configured filter does not determine which objects produce
records. -/
theorem filter_ignored_cex :
    processTransaction ⟨none⟩ 0 0 0
        ⟨[], [⟨"0xc", 1, some ("0xabc::x::X"), 50, "AddressOwner", some ("0xa1"), "t0"⟩],
          ⟨[], [], [], [], [], []⟩, "d"⟩ ⟨[], [], [], [], [], []⟩ [] = some [] ∧
    (processTransaction ⟨some ("0xdead")⟩ 0 0 0
        ⟨[], [⟨"0xd", 1, some suiCoinType, 50, "AddressOwner", some ("0xa1"), "t0"⟩],
          ⟨["0xd"], [], [], [], [], []⟩, "d"⟩
        ⟨["0xd"], [], [], [], [], []⟩ []).map List.length = some 1 :=
  ⟨rfl, rfl⟩

/-- Claim C5 (amended): the configured package filter is never consulted —
processing is identical for every filter configuration; an output object
yields entries only when its coin type is exactly "0x2::sui::SUI", and
non-SUI input objects produce no snapshots (hence no Deleted entries
either). -/
theorem filter_ignored_amended :
    (∀ (h h' : OwnershipHandler) (epoch checkpoint timestamp_ms : Nat)
        (tx : CheckpointTransaction) (effects : TransactionEffects)
        (objects : List OwnershipEntry),
      processTransaction h epoch checkpoint timestamp_ms tx effects objects =
        processTransaction h' epoch checkpoint timestamp_ms tx effects objects) ∧
    (∀ (epoch checkpoint timestamp_ms : Nat) (effects : TransactionEffects)
        (olds : List (String × OwnershipEntry)) (o : Obj),
      ¬o.coin_type = some suiCoinType →
      outputEntriesFor epoch checkpoint timestamp_ms effects olds o = some []) ∧
    (∀ (epoch checkpoint timestamp_ms : Nat) (inputs : List Obj),
      (∀ o ∈ inputs, ¬o.coin_type = some suiCoinType) →
      buildOldEntries epoch checkpoint timestamp_ms inputs = []) := by
  refine ⟨fun h h' ep ck ts tx fx objects => rfl,
    fun ep ck ts fx olds o hc => outputEntriesFor_skip hc, ?_⟩
  intro ep ck ts inputs hall
  unfold buildOldEntries
  have hf : inputs.filter (fun o => decide (o.coin_type = some suiCoinType)) = [] := by
    rw [List.filter_eq_nil_iff]
    intro o ho
    simp only [decide_eq_true_eq]
    exact hall o ho
  rw [hf]
  rfl

/-- Witness for the amended C5: applied to a non-SUI object and to two
differently configured handlers. -/
theorem filter_ignored_amended_witness :
    (¬(⟨"0xc", 1, some ("0xabc::x::X"), 50, "AddressOwner", some ("0xa1"), "t0"⟩ :
        Obj).coin_type = some suiCoinType) ∧
    outputEntriesFor 0 0 0 ⟨[], [], [], [], [], []⟩ []
      ⟨"0xc", 1, some ("0xabc::x::X"), 50, "AddressOwner", some ("0xa1"), "t0"⟩ =
      some [] ∧
    buildOldEntries 0 0 0
      [⟨"0xc", 1, some ("0xabc::x::X"), 50, "AddressOwner", some ("0xa1"), "t0"⟩] = [] ∧
    processTransaction ⟨some ("0xdead")⟩ 1 2 3
        ⟨[], [], ⟨[], [], [], [], [], []⟩, "d"⟩ ⟨[], [], [], [], [], []⟩ [] =
      processTransaction ⟨none⟩ 1 2 3
        ⟨[], [], ⟨[], [], [], [], [], []⟩, "d"⟩ ⟨[], [], [], [], [], []⟩ [] :=
  ⟨by decide,
    filter_ignored_amended.2.1 0 0 0 ⟨[], [], [], [], [], []⟩ []
      ⟨"0xc", 1, some ("0xabc::x::X"), 50, "AddressOwner", some ("0xa1"), "t0"⟩
      (by decide),
    filter_ignored_amended.2.2 0 0 0
      [⟨"0xc", 1, some ("0xabc::x::X"), 50, "AddressOwner", some ("0xa1"), "t0"⟩]
      (by intro o ho
          rcases List.mem_singleton.mp ho with rfl
          decide),
    filter_ignored_amended.1 ⟨some ("0xdead")⟩ ⟨none⟩ 1 2 3
      ⟨[], [], ⟨[], [], [], [], [], []⟩, "d"⟩ ⟨[], [], [], [], [], []⟩ []⟩

/-- The removed loop counts no entry under an id that none of its
references carries. -/
theorem countP_removedLoop_zero {epoch checkpoint timestamp_ms : Nat}
    {dg : String} {olds : List (String × OwnershipEntry)} {a : String}
    {rs : List (String × Nat)} (hne : ∀ r ∈ rs, r.1 ≠ a) :
    (removedLoopEntries epoch checkpoint timestamp_ms dg olds rs).countP
      (fun e => e.object_id == a) = 0 := by
  rw [List.countP_eq_zero]
  intro e he
  rw [removedLoopEntries_eq_flatten] at he
  obtain ⟨l, hl, hel⟩ := List.mem_flatten.mp he
  obtain ⟨r, hr, rfl⟩ := List.mem_map.mp hl
  obtain ⟨pid, old, _, rfl⟩ := removedEntriesFor_mem hel
  simp only [beq_iff_eq]
  exact hne r hr

/-- With pairwise-distinct removed ids, the removed loop counts exactly
one entry under the id of a reference whose snapshot lookup succeeds. -/
theorem countP_removedLoop_one {epoch checkpoint timestamp_ms : Nat}
    {dg : String} {olds : List (String × OwnershipEntry)} {ref : String × Nat}
    {pid : String} {old : OwnershipEntry}
    (hfind : olds.find? (fun p => p.1 == ref.1) = some (pid, old)) :
    ∀ {removed : List (String × Nat)}, ref ∈ removed →
      (removed.map Prod.fst).Nodup →
      (removedLoopEntries epoch checkpoint timestamp_ms dg olds removed).countP
        (fun e => e.object_id == ref.1) = 1 := by
  intro removed
  induction removed with
  | nil => intro hmem; cases hmem
  | cons r rs ih =>
    intro hmem hnd
    rw [List.map_cons, List.nodup_cons] at hnd
    obtain ⟨hnotin, hnd2⟩ := hnd
    rw [removedLoopEntries_eq_flatten, List.map_cons, List.flatten_cons,
      List.countP_append, ← removedLoopEntries_eq_flatten]
    rcases List.mem_cons.mp hmem with rfl | hmem2
    · have hz : (removedLoopEntries epoch checkpoint timestamp_ms dg olds rs).countP
          (fun e => e.object_id == ref.1) = 0 := by
        apply countP_removedLoop_zero
        intro r2 hr2 hEq
        exact hnotin (hEq ▸ List.mem_map_of_mem Prod.fst hr2)
      rw [removedEntriesFor_found hfind, hz]
      simp [deletedEntry, List.countP_cons]
    · have hne : r.1 ≠ ref.1 := by
        intro hEq
        exact hnotin (hEq ▸ List.mem_map_of_mem Prod.fst hmem2)
      have hz : (removedEntriesFor epoch checkpoint timestamp_ms dg olds r).countP
          (fun e => e.object_id == ref.1) = 0 := by
        rw [List.countP_eq_zero]
        intro e he
        obtain ⟨pid2, old2, _, rfl⟩ := removedEntriesFor_mem he
        simp only [beq_iff_eq]
        exact hne
      rw [hz, ih hmem2 hnd2]

/-- Claim C2 (counterexample): an object with an in-window SUI snapshot is
removed by the transaction's effects, yet the emitted entries contain no
entry with status "Deleted" — the single entry emitted for it carries the
status string "DELETED" instead. -/
theorem deleted_status_string_cex :
    (processTransaction ⟨none⟩ 1 2 3
        ⟨[⟨"0xb", 3, some suiCoinType, 10, "AddressOwner", some ("0xa1"), "t0"⟩], [],
          ⟨[], [], [], ["0xb"], [], [("0xb", 6)]⟩, "dg"⟩
        ⟨[], [], [], ["0xb"], [], [("0xb", 6)]⟩ []).map
      (fun l => (l.countP (fun e => e.object_status == "Deleted"),
                 l.countP (fun e => e.object_status == "DELETED"))) =
      some (0, 1) := rfl

/-- Claim C2 (amended): for every reference in the removed set (its ids
pairwise distinct) whose id has an in-window snapshot, the removed loop
emits exactly one entry for that id; its status string is "DELETED"
(uppercase), its version is the deletion reference's version (not the
snapshot's), owner_type/owner_address/coin_type are copied from the
snapshot, coin_balance = 0, previous_transaction is the transaction's own
digest, and every previous_* field is null. -/
theorem deleted_entry_amended (epoch checkpoint timestamp_ms : Nat)
    (dg : String) (inputs : List Obj) (removed : List (String × Nat))
    (ref : String × Nat) (pid : String) (old : OwnershipEntry)
    (hnd : (removed.map Prod.fst).Nodup)
    (hmem : ref ∈ removed)
    (hfind : (buildOldEntries epoch checkpoint timestamp_ms inputs).find?
        (fun p => p.1 == ref.1) = some (pid, old)) :
    (removedLoopEntries epoch checkpoint timestamp_ms dg
        (buildOldEntries epoch checkpoint timestamp_ms inputs) removed).countP
      (fun e => e.object_id == ref.1) = 1 ∧
    ∃ e ∈ removedLoopEntries epoch checkpoint timestamp_ms dg
        (buildOldEntries epoch checkpoint timestamp_ms inputs) removed,
      e.object_id = ref.1 ∧ e.version = ref.2 ∧ e.object_status = "DELETED" ∧
      e.owner_type = old.owner_type ∧ e.owner_address = old.owner_address ∧
      e.coin_type = old.coin_type ∧ old.coin_type = some suiCoinType ∧
      e.coin_balance = 0 ∧ e.previous_transaction = dg ∧
      e.previous_owner = none ∧ e.previous_version = none ∧
      e.previous_checkpoint = none ∧ e.previous_coin_type = none ∧
      e.previous_type = none := by
  constructor
  · exact countP_removedLoop_one hfind hmem hnd
  · refine ⟨deletedEntry epoch checkpoint timestamp_ms dg old ref, ?_,
      rfl, rfl, rfl, rfl, rfl, rfl, (find_buildOldEntries_fields hfind).1,
      rfl, rfl, rfl, rfl, rfl, rfl, rfl⟩
    rw [removedLoopEntries_eq_flatten]
    apply List.mem_flatten.mpr
    refine ⟨removedEntriesFor epoch checkpoint timestamp_ms dg
      (buildOldEntries epoch checkpoint timestamp_ms inputs) ref,
      List.mem_map_of_mem _ hmem, ?_⟩
    rw [removedEntriesFor_found hfind]
    exact List.mem_singleton.mpr rfl

/-- Witness for the amended C2: a concrete removal of a snapshotted SUI
coin at version 6. -/
theorem deleted_entry_amended_witness :
    (([("0xb", 6)] : List (String × Nat)).map Prod.fst).Nodup ∧
    (("0xb", 6) : String × Nat) ∈ ([("0xb", 6)] : List (String × Nat)) ∧
    ((buildOldEntries 1 2 3
        [⟨"0xb", 3, some suiCoinType, 10, "AddressOwner", some ("0xa1"), "t0"⟩]).find?
        (fun p => p.1 == (("0xb", 6) : String × Nat).1) =
      some ("0xb", mkOldEntry 1 2 3
        ⟨"0xb", 3, some suiCoinType, 10, "AddressOwner", some ("0xa1"), "t0"⟩)) ∧
    ((removedLoopEntries 1 2 3 ("dg")
        (buildOldEntries 1 2 3
          [⟨"0xb", 3, some suiCoinType, 10, "AddressOwner", some ("0xa1"), "t0"⟩])
        [("0xb", 6)]).countP
      (fun e => e.object_id == (("0xb", 6) : String × Nat).1) = 1 ∧
    ∃ e ∈ removedLoopEntries 1 2 3 ("dg")
        (buildOldEntries 1 2 3
          [⟨"0xb", 3, some suiCoinType, 10, "AddressOwner", some ("0xa1"), "t0"⟩])
        [("0xb", 6)],
      e.object_id = (("0xb", 6) : String × Nat).1 ∧
      e.version = (("0xb", 6) : String × Nat).2 ∧
      e.object_status = "DELETED" ∧
      e.owner_type = (mkOldEntry 1 2 3
        ⟨"0xb", 3, some suiCoinType, 10, "AddressOwner", some ("0xa1"), "t0"⟩).owner_type ∧
      e.owner_address = (mkOldEntry 1 2 3
        ⟨"0xb", 3, some suiCoinType, 10, "AddressOwner", some ("0xa1"), "t0"⟩).owner_address ∧
      e.coin_type = (mkOldEntry 1 2 3
        ⟨"0xb", 3, some suiCoinType, 10, "AddressOwner", some ("0xa1"), "t0"⟩).coin_type ∧
      (mkOldEntry 1 2 3
        ⟨"0xb", 3, some suiCoinType, 10, "AddressOwner", some ("0xa1"), "t0"⟩).coin_type =
        some suiCoinType ∧
      e.coin_balance = 0 ∧ e.previous_transaction = "dg" ∧
      e.previous_owner = none ∧ e.previous_version = none ∧
      e.previous_checkpoint = none ∧ e.previous_coin_type = none ∧
      e.previous_type = none) :=
  ⟨by decide, by decide, rfl,
    deleted_entry_amended 1 2 3 ("dg")
      [⟨"0xb", 3, some suiCoinType, 10, "AddressOwner", some ("0xa1"), "t0"⟩]
      [("0xb", 6)] ("0xb", 6) "0xb"
      (mkOldEntry 1 2 3
        ⟨"0xb", 3, some suiCoinType, 10, "AddressOwner", some ("0xa1"), "t0"⟩)
      (by decide) (by decide) rfl⟩

end SuiOwnership
